import Mathlib

/-!
Shallow embedding of the scenario-replay subsystem of
`mcp-android-server-python` (the files `replay/replay_engine.py`,
`replay/action_dispatcher.py`, `replay/execution_context.py`,
`replay/replay_report.py`), together with theorems checking the
natural-language specification against it.

Modelling conventions:
* JSON data (scenario files, recorded parameters, tool results) is the
  inductive type `JValue`; Python dicts are ordered association lists
  with unique keys, as produced by `json.load`.
* Machine floats are modelled as `ℚ`.  Wall-clock readings
  (`time.time()`) are environment inputs with no bearing on any claim,
  so the embedded `start_time`/`end_time`/`duration_ms` fields are 0.
* Code that can raise returns `Except String α`; the string is the
  Python `str(e)` of the raised exception.
* The behaviour of the dispatched device capability is an oracle
  `ℕ → Except String JValue` giving the outcome of the i-th dispatch
  call, and screenshot capture is an oracle `String → Option String`
  from the stage name ("before"/"after"/"error") to the captured file
  path (`none` models a failed capture, which the source logs and
  swallows).
* Sleeps (`time.sleep`) are recorded in an explicit trace of slept
  durations in seconds, in order.
-/

namespace Replay

/-- JSON-like values as loaded by `json.load` in `replay_engine.py`.
Objects are ordered association lists (Python dicts preserve insertion
order and have unique keys). -/
inductive JValue where
  | null
  | bool (b : Bool)
  | num (q : ℚ)
  | str (s : String)
  | arr (xs : List JValue)
  | obj (fields : List (String × JValue))

/-- Python truthiness (`if x:`) for the JSON values that occur here:
`None`, `False`, `0`, `""`, `[]` and `{}` are falsy. -/
def jtruthy : JValue → Bool
  | .null => false
  | .bool b => b
  | .num q => if q = 0 then false else true
  | .str s => if s = "" then false else true
  | .arr xs => !xs.isEmpty
  | .obj fs => !fs.isEmpty

/-- `d.get(k)` on a dict-valued `JValue`: `None` when the key is absent
or the value is not a dict (Python would raise `AttributeError` on a
non-dict; no claim exercises that path). -/
def jget : JValue → String → JValue
  | .obj fs, k => match fs.find? (fun p => p.1 = k) with
    | some p => p.2
    | none => .null
  | _, _ => .null

/-- `d.get(k, default)`. -/
def jgetD (v : JValue) (k : String) (default : JValue) : JValue :=
  match v with
  | .obj fs => match fs.find? (fun p => p.1 = k) with
    | some p => p.2
    | none => default
  | _ => default

/-- `k in d` for a dict-valued `JValue`. -/
def jhasKey : JValue → String → Bool
  | .obj fs, k => fs.any (fun p => p.1 = k)
  | _, _ => false

/-- Python `a or b` (first operand when truthy, second otherwise). -/
def jor (a b : JValue) : JValue := if jtruthy a then a else b

/-- A recorded parameter map (a Python dict `str -> value`). -/
abbrev ParamMap := List (String × JValue)

/-- `k in m` for a parameter dict. -/
def pmHasKey (m : ParamMap) (k : String) : Bool := m.any (fun p => p.1 = k)

/-- `m[k]` / `m.get(k)`: value of the (unique) entry with key `k`. -/
def pmGet (m : ParamMap) (k : String) : JValue :=
  match m.find? (fun p => p.1 = k) with
  | some p => p.2
  | none => .null

/-- `m.pop(k)`: the dict after removing the (unique) entry with key
`k`, remaining entries keeping their order. -/
def pmPop (m : ParamMap) (k : String) : ParamMap :=
  m.filter (fun p => ¬ p.1 = k)

/-- `m[k] = v`: update in place when the key exists, else append (this
is Python dict assignment order semantics). -/
def pmSet : ParamMap → String → JValue → ParamMap
  | [], k, v => [(k, v)]
  | (k', v') :: rest, k, v =>
    if k' = k then (k, v) :: rest else (k', v') :: pmSet rest k v

/-- `ActionStatus` enum from `replay_report.py`. -/
inductive ActionStatus where
  | success
  | failed
  | skipped
  | timeout
deriving DecidableEq

/-- `ExecutionMetrics` dataclass from `replay_report.py`. -/
structure ExecutionMetrics where
  start_time : ℚ
  end_time : ℚ
  duration_ms : ℚ
  retry_count : ℕ
  timeout_occurred : Bool
  screenshot_captured : Bool
deriving DecidableEq

/-- `ActionResult` dataclass from `replay_report.py`. -/
structure ActionResult where
  action_index : ℕ
  tool_name : String
  parameters : ParamMap
  status : ActionStatus
  result : Option JValue
  error : Option String
  metrics : Option ExecutionMetrics
  screenshot_before : Option String := none
  screenshot_after : Option String := none
  screenshot_diff : Option String := none

/-- `ReplayConfig` dataclass from `execution_context.py`, with the
source's defaults. -/
structure ReplayConfig where
  retry_attempts : ℕ := 3
  retry_delay_ms : ℚ := 500
  capture_screenshots : Bool := false
  screenshot_on_error : Bool := true
  compare_screenshots : Bool := false
  speed_multiplier : ℚ := 1
  timeout_multiplier : ℚ := 1
  stop_on_error : Bool := false
  wait_for_screen_on : Bool := true
deriving DecidableEq

/-- The backoff sleep (in seconds) performed after the failed attempt
with zero-based index `attempt`:
`delay = retry_delay_ms / 1000.0; delay *= 2 ** attempt`
(`execution_context.py` lines 126-128). -/
def backoffDelay (cfg : ReplayConfig) (attempt : ℕ) : ℚ :=
  cfg.retry_delay_ms / 1000 * 2 ^ attempt

/-- Outcome of the `for attempt in range(retry_attempts)` loop of
`ExecutionContext.execute_with_retry`. -/
inductive RetryOutcome where
  | success (attempt : ℕ) (value : JValue)
  | exhausted (last_error : Option String)

/-- The retry loop of `execute_with_retry`: `remaining` attempts are
left, the next one has zero-based index `attempt`, `last_error` holds
the most recent exception text.  Returns the outcome, the number of
dispatch calls made, and the trace of backoff sleeps.  A sleep happens
only when `attempt < retry_attempts - 1` (not after the final failed
attempt). -/
def retryLoop (cfg : ReplayConfig) (behavior : ℕ → Except String JValue) :
    ℕ → ℕ → Option String → RetryOutcome × ℕ × List ℚ
  | 0, _, last_error => (.exhausted last_error, 0, [])
  | remaining + 1, attempt, _ =>
    match behavior attempt with
    | .ok v => (.success attempt v, 1, [])
    | .error e =>
      let sleeps : List ℚ :=
        if attempt < cfg.retry_attempts - 1 then [backoffDelay cfg attempt] else []
      let rest := retryLoop cfg behavior remaining (attempt + 1) (some e)
      (rest.1, rest.2.1 + 1, sleeps ++ rest.2.2)

/-- Result of one `execute_with_retry` call together with its
observable traces: how many times `dispatcher.dispatch` was invoked
and which backoff sleeps were performed. -/
structure ExecTrace where
  result : ActionResult
  dispatch_calls : ℕ
  sleeps : List ℚ

/-- `ExecutionContext.execute_with_retry` (`execution_context.py`
lines 52-159).  `behavior i` is the outcome of the i-th
`dispatcher.dispatch(tool_name, parameters)` call; `shots stage` is
the path returned by `_capture_screenshot(action_index, stage)`
(`none` when the capture failed, as `_capture_screenshot` swallows its
own errors and returns `None`). -/
def execute_with_retry (cfg : ReplayConfig) (tool_name : String)
    (parameters : ParamMap) (action_index : ℕ)
    (behavior : ℕ → Except String JValue)
    (shots : String → Option String) : ExecTrace :=
  let screenshot_before := if cfg.capture_screenshots then shots "before" else none
  match retryLoop cfg behavior cfg.retry_attempts 0 none with
  | (.success attempt v, calls, sleeps) =>
    let metrics : ExecutionMetrics :=
      { start_time := 0, end_time := 0, duration_ms := 0,
        retry_count := attempt, timeout_occurred := false,
        screenshot_captured := cfg.capture_screenshots }
    let screenshot_after := if cfg.capture_screenshots then shots "after" else none
    { result :=
        { action_index := action_index, tool_name := tool_name,
          parameters := parameters, status := .success,
          result := some v, error := none, metrics := some metrics,
          screenshot_before := screenshot_before,
          screenshot_after := screenshot_after },
      dispatch_calls := calls, sleeps := sleeps }
  | (.exhausted last_error, calls, sleeps) =>
    let metrics : ExecutionMetrics :=
      { start_time := 0, end_time := 0, duration_ms := 0,
        retry_count := cfg.retry_attempts, timeout_occurred := false,
        screenshot_captured := false }
    let screenshot_after := if cfg.screenshot_on_error then shots "error" else none
    { result :=
        { action_index := action_index, tool_name := tool_name,
          parameters := parameters, status := .failed,
          result := none, error := last_error, metrics := some metrics,
          screenshot_before := screenshot_before,
          screenshot_after := screenshot_after },
      dispatch_calls := calls, sleeps := sleeps }

/-- If every dispatch call raises, the retry loop exhausts its fuel:
the outcome carries the last raised message, every attempt makes one
dispatch call, and a backoff sleep follows every attempt except the
final one. -/
theorem retryLoop_allFail (cfg : ReplayConfig) (msgs : ℕ → String) :
    ∀ remaining attempt le, 0 < remaining →
      attempt + remaining = cfg.retry_attempts →
      retryLoop cfg (fun i => Except.error (msgs i)) remaining attempt le =
        (RetryOutcome.exhausted (some (msgs (cfg.retry_attempts - 1))), remaining,
          (List.range' attempt (remaining - 1)).map (backoffDelay cfg)) := by
  intro remaining
  induction remaining with
  | zero => intro attempt le h _; omega
  | succ r ih =>
    intro attempt le _ hsum
    cases r with
    | zero =>
      have ha : attempt = cfg.retry_attempts - 1 := by omega
      have hnlt : ¬ attempt < cfg.retry_attempts - 1 := by omega
      simp [retryLoop, hnlt, ha]
    | succ s =>
      have hlt : attempt < cfg.retry_attempts - 1 := by omega
      have hrec := ih (attempt + 1) (some (msgs attempt)) (by omega) (by omega)
      simp only [retryLoop, Prod.mk.injEq] at hrec ⊢
      obtain ⟨h1, h2, h3⟩ := hrec
      refine ⟨h1, by omega, ?_⟩
      simp [hlt, h3, List.range'_succ]

/-- If the dispatch calls with index below `k` raise and the call with
index `k` succeeds with `v` (and `k` is within the attempt budget),
the retry loop returns success at attempt `k` after `k + 1 - attempt`
dispatch calls. -/
theorem retryLoop_succAt (cfg : ReplayConfig)
    (behavior : ℕ → Except String JValue) (k : ℕ) (v : JValue)
    (hfail : ∀ i, i < k → ∃ m, behavior i = Except.error m)
    (hsucc : behavior k = Except.ok v) :
    ∀ remaining attempt le, attempt ≤ k → k < attempt + remaining →
      ∃ sleeps, retryLoop cfg behavior remaining attempt le =
        (RetryOutcome.success k v, k + 1 - attempt, sleeps) := by
  intro remaining
  induction remaining with
  | zero => intro attempt le _ h; omega
  | succ r ih =>
    intro attempt le hak hka
    rcases Nat.lt_or_ge attempt k with hlt | hge
    · obtain ⟨m, hm⟩ := hfail attempt hlt
      obtain ⟨sleeps, hrec⟩ := ih (attempt + 1) (some m) (by omega) (by omega)
      refine ⟨(if attempt < cfg.retry_attempts - 1
        then [backoffDelay cfg attempt] else []) ++ sleeps, ?_⟩
      have hcalls : k + 1 - (attempt + 1) + 1 = k + 1 - attempt := by omega
      simp [retryLoop, hm, hrec, hcalls]
      omega
    · have hak' : attempt = k := by omega
      subst hak'
      refine ⟨[], ?_⟩
      simp [retryLoop, hsucc]

/-- C4: executeWithRetry against a dispatcher that raises on every
call returns FAILED with the last raised message, `retry_count`
equal to `retry_attempts`, exactly `retry_attempts` dispatch calls,
and backoff sleeps `retry_delay_ms/1000 * 2^i` after each non-final
attempt `i` only. -/
theorem executeWithRetry_exhaustion (cfg : ReplayConfig) (tool : String)
    (params : ParamMap) (idx : ℕ) (msgs : ℕ → String)
    (shots : String → Option String) (hn : 1 ≤ cfg.retry_attempts) :
    (execute_with_retry cfg tool params idx
        (fun i => Except.error (msgs i)) shots).result.status = ActionStatus.failed ∧
    (execute_with_retry cfg tool params idx
        (fun i => Except.error (msgs i)) shots).result.error =
      some (msgs (cfg.retry_attempts - 1)) ∧
    ((execute_with_retry cfg tool params idx
        (fun i => Except.error (msgs i)) shots).result.metrics.map
        ExecutionMetrics.retry_count) = some cfg.retry_attempts ∧
    (execute_with_retry cfg tool params idx
        (fun i => Except.error (msgs i)) shots).dispatch_calls = cfg.retry_attempts ∧
    (execute_with_retry cfg tool params idx
        (fun i => Except.error (msgs i)) shots).sleeps =
      (List.range (cfg.retry_attempts - 1)).map (backoffDelay cfg) := by
  have h := retryLoop_allFail cfg msgs cfg.retry_attempts 0 none (by omega) (by omega)
  simp [execute_with_retry, h, List.range_eq_range']

/-- Closed instance of `executeWithRetry_exhaustion` at the default
config (3 attempts, 500 ms base delay). -/
theorem executeWithRetry_exhaustion_witness :
    1 ≤ (({} : ReplayConfig)).retry_attempts ∧
    ((execute_with_retry {} "click" [] 0
        (fun i => Except.error ("boom" ++ toString i))
        (fun _ => none)).result.status = ActionStatus.failed ∧
      (execute_with_retry {} "click" [] 0
        (fun i => Except.error ("boom" ++ toString i))
        (fun _ => none)).result.error = some ("boom" ++ toString 2) ∧
      ((execute_with_retry {} "click" [] 0
        (fun i => Except.error ("boom" ++ toString i))
        (fun _ => none)).result.metrics.map ExecutionMetrics.retry_count) = some 3 ∧
      (execute_with_retry {} "click" [] 0
        (fun i => Except.error ("boom" ++ toString i))
        (fun _ => none)).dispatch_calls = 3 ∧
      (execute_with_retry {} "click" [] 0
        (fun i => Except.error ("boom" ++ toString i))
        (fun _ => none)).sleeps =
        (List.range 2).map (backoffDelay {}) ) :=
  ⟨by decide, executeWithRetry_exhaustion {} "click" [] 0
    (fun i => "boom" ++ toString i) (fun _ => none) (by decide)⟩

/-- C5: executeWithRetry against a dispatcher that raises on its first
`k < retry_attempts` calls and then succeeds returns SUCCESS carrying
the dispatcher's value, no error, `retry_count = k`, after exactly
`k + 1` dispatch calls. -/
theorem executeWithRetry_idempotence (cfg : ReplayConfig) (tool : String)
    (params : ParamMap) (idx : ℕ) (behavior : ℕ → Except String JValue)
    (shots : String → Option String) (k : ℕ) (v : JValue)
    (hk : k < cfg.retry_attempts)
    (hfail : ∀ i, i < k → ∃ m, behavior i = Except.error m)
    (hsucc : behavior k = Except.ok v) :
    (execute_with_retry cfg tool params idx behavior shots).result.status =
      ActionStatus.success ∧
    (execute_with_retry cfg tool params idx behavior shots).result.result = some v ∧
    (execute_with_retry cfg tool params idx behavior shots).result.error = none ∧
    ((execute_with_retry cfg tool params idx behavior shots).result.metrics.map
      ExecutionMetrics.retry_count) = some k ∧
    (execute_with_retry cfg tool params idx behavior shots).dispatch_calls = k + 1 := by
  obtain ⟨sleeps, h⟩ := retryLoop_succAt cfg behavior k v hfail hsucc
    cfg.retry_attempts 0 none (by omega) (by omega)
  simp [execute_with_retry, h]

/-- Closed instance of `executeWithRetry_idempotence`: one failure
then success under the default config. -/
theorem executeWithRetry_idempotence_witness :
    1 < (({} : ReplayConfig)).retry_attempts ∧
    ((execute_with_retry {} "click" [] 0
        (fun i => if i < 1 then Except.error "e" else Except.ok (JValue.num 7))
        (fun _ => none)).result.status = ActionStatus.success ∧
      (execute_with_retry {} "click" [] 0
        (fun i => if i < 1 then Except.error "e" else Except.ok (JValue.num 7))
        (fun _ => none)).result.result = some (JValue.num 7) ∧
      (execute_with_retry {} "click" [] 0
        (fun i => if i < 1 then Except.error "e" else Except.ok (JValue.num 7))
        (fun _ => none)).result.error = none ∧
      ((execute_with_retry {} "click" [] 0
        (fun i => if i < 1 then Except.error "e" else Except.ok (JValue.num 7))
        (fun _ => none)).result.metrics.map ExecutionMetrics.retry_count) = some 1 ∧
      (execute_with_retry {} "click" [] 0
        (fun i => if i < 1 then Except.error "e" else Except.ok (JValue.num 7))
        (fun _ => none)).dispatch_calls = 1 + 1) :=
  ⟨by decide, executeWithRetry_idempotence {} "click" [] 0
    (fun i => if i < 1 then Except.error "e" else Except.ok (JValue.num 7))
    (fun _ => none) 1 (JValue.num 7) (by decide)
    (fun i hi => ⟨"e", by simp [show i = 0 by omega]⟩) (by simp)⟩

/-- C10: every ActionResult from executeWithRetry carries a metrics
record; on the SUCCESS path `screenshot_captured` equals the
`capture_screenshots` config flag regardless of what the screenshot
oracle did, and on the FAILED path `screenshot_captured` is `false`
even when `screenshot_on_error` routed an error-stage capture into
`screenshot_after`. -/
theorem executeWithRetry_screenshot_flag (cfg : ReplayConfig) (tool : String)
    (params : ParamMap) (idx : ℕ) (behavior : ℕ → Except String JValue)
    (shots : String → Option String) :
    (execute_with_retry cfg tool params idx behavior shots).result.metrics ≠ none ∧
    ((execute_with_retry cfg tool params idx behavior shots).result.status =
        ActionStatus.success →
      ((execute_with_retry cfg tool params idx behavior shots).result.metrics.map
        ExecutionMetrics.screenshot_captured) = some cfg.capture_screenshots ∧
      (execute_with_retry cfg tool params idx behavior shots).result.screenshot_after =
        (if cfg.capture_screenshots then shots "after" else none)) ∧
    ((execute_with_retry cfg tool params idx behavior shots).result.status =
        ActionStatus.failed →
      ((execute_with_retry cfg tool params idx behavior shots).result.metrics.map
        ExecutionMetrics.screenshot_captured) = some false ∧
      (execute_with_retry cfg tool params idx behavior shots).result.screenshot_after =
        (if cfg.screenshot_on_error then shots "error" else none)) := by
  unfold execute_with_retry
  rcases h : retryLoop cfg behavior cfg.retry_attempts 0 none with ⟨o, calls, sleeps⟩
  rcases o with ⟨attempt, v⟩ | le
  · simp
  · simp

/-- Closed instance of `executeWithRetry_screenshot_flag`: failed run
with `screenshot_on_error` capturing a path, yet the flag is false. -/
theorem executeWithRetry_screenshot_flag_witness :
    ((execute_with_retry {} "click" [] 0 (fun _ => Except.error "e")
        (fun _ => some "shot.png")).result.status = ActionStatus.failed) ∧
    ((execute_with_retry {} "click" [] 0 (fun _ => Except.error "e")
        (fun _ => some "shot.png")).result.metrics.map
        ExecutionMetrics.screenshot_captured) = some false ∧
    ((execute_with_retry {} "click" [] 0 (fun _ => Except.error "e")
        (fun _ => some "shot.png")).result.screenshot_after = some "shot.png") := by
  have h := executeWithRetry_screenshot_flag {} "click" [] 0
    (fun _ => Except.error "e") (fun _ => some "shot.png")
  have hst : (execute_with_retry {} "click" [] 0 (fun _ => Except.error "e")
      (fun _ => some "shot.png")).result.status = ActionStatus.failed := by
    simp [execute_with_retry, retryLoop]
  refine ⟨hst, ?_, ?_⟩
  · exact (h.2.2 hst).1
  · simpa using (h.2.2 hst).2

/-- The 48 tool names registered by
`ActionDispatcher._initialize_registry` (`action_dispatcher.py` lines
28-107), in registration order. -/
def toolRegistry : List String :=
  ["click", "long_click", "double_click", "send_text", "swipe", "drag",
   "click_at", "double_click_at", "screenshot", "wait_for_element",
   "click_xpath", "long_click_xpath", "send_text_xpath", "wait_xpath",
   "scroll_to", "scroll_forward", "scroll_backward",
   "scroll_to_beginning", "scroll_to_end", "fling_forward",
   "fling_backward", "start_app", "stop_app", "stop_all_apps",
   "install_app", "uninstall_app", "clear_app_data", "press_key",
   "screen_on", "screen_off", "unlock_screen", "set_orientation",
   "freeze_rotation", "pinch_in", "pinch_out", "set_clipboard",
   "pull_file", "push_file", "open_notification",
   "open_quick_settings", "disable_popups", "wait_activity",
   "healthcheck", "reset_uiautomator", "send_action", "watcher_start",
   "watcher_stop", "watcher_remove"]

/-- Message of the `KeyError` raised by `ActionDispatcher.dispatch`
when the tool is not registered: it names the tool and joins all
registered tool names, sorted, with ", " (lines 132-136). -/
def unknownToolMessage (tool_name : String) : String :=
  "Tool \x27" ++ tool_name ++ "\x27 not found in registry. Supported tools: " ++
    String.intercalate ", " (toolRegistry.insertionSort (· ≤ ·))

/-- Python `str(e)` for `e = KeyError(m)` is `repr(m)`; for the
messages arising here (single quotes inside, no double quotes,
backslashes or control characters) that is `m` wrapped in double
quotes. -/
def keyErrorStr (m : String) : String := "\"" ++ m ++ "\""

/-- `ActionDispatcher._transform_parameters` (`action_dispatcher.py`
lines 156-184).  The first component is the state of the caller's
`parameters` dict after the call — the `screenshot`/`filepath` branch
mutates it in place (`parameters['filename'] = parameters.pop('filepath')`)
before `parameters.copy()` is taken — and the second component is the
returned copy. -/
def transform_parameters (tool_name : String) (parameters : ParamMap) :
    ParamMap × ParamMap :=
  let parameters :=
    if tool_name = "screenshot" ∧
        pmHasKey parameters "filepath" = true ∧
        pmHasKey parameters "filename" = false then
      pmSet (pmPop parameters "filepath") "filename" (pmGet parameters "filepath")
    else parameters
  (parameters, parameters)

/-- `ActionDispatcher.dispatch` (`action_dispatcher.py` lines
113-154).  `impl` is the oracle for the underlying capability call
`tool_func(**transformed)`.  The result pairs the dispatch outcome
with the post-call state of the caller's `parameters` dict.  The
registry check precedes parameter transformation, so an unknown tool
raises before anything is touched.  (The `TypeError` re-wrapping on
lines 147-154 only rewords the message of an already-failing call and
is not modelled; no claim depends on it.) -/
def dispatch (tool_name : String) (parameters : ParamMap)
    (impl : String → ParamMap → Except String JValue) :
    Except String JValue × ParamMap :=
  if tool_name ∈ toolRegistry then
    let t := transform_parameters tool_name parameters
    (impl tool_name t.2, t.1)
  else
    (Except.error (keyErrorStr (unknownToolMessage tool_name)), parameters)

/-- C2 (amended): an unregistered tool makes every dispatch call raise
the enumerating `KeyError`; `execute_with_retry` treats it like any
other exception, so dispatch is invoked `retry_attempts` times and the
final ActionResult is FAILED carrying the `str` of that `KeyError`. -/
theorem dispatch_unknown_tool_retried (cfg : ReplayConfig) (tool : String)
    (params : ParamMap) (idx : ℕ)
    (impl : String → ParamMap → Except String JValue)
    (shots : String → Option String)
    (h : ¬ tool ∈ toolRegistry) (hn : 1 ≤ cfg.retry_attempts) :
    (dispatch tool params impl).1 =
      Except.error (keyErrorStr (unknownToolMessage tool)) ∧
    (dispatch tool params impl).2 = params ∧
    (execute_with_retry cfg tool params idx
        (fun _ => (dispatch tool params impl).1) shots).result.status =
      ActionStatus.failed ∧
    (execute_with_retry cfg tool params idx
        (fun _ => (dispatch tool params impl).1) shots).result.error =
      some (keyErrorStr (unknownToolMessage tool)) ∧
    (execute_with_retry cfg tool params idx
        (fun _ => (dispatch tool params impl).1) shots).dispatch_calls =
      cfg.retry_attempts := by
  have hd : dispatch tool params impl =
      (Except.error (keyErrorStr (unknownToolMessage tool)), params) := by
    simp [dispatch, h]
  have hloop := retryLoop_allFail cfg
    (fun _ => keyErrorStr (unknownToolMessage tool))
    cfg.retry_attempts 0 none (by omega) (by omega)
  refine ⟨by simp [hd], by simp [hd], ?_, ?_, ?_⟩ <;>
    simp [hd, execute_with_retry, hloop]

/-- Closed instance of `dispatch_unknown_tool_retried` at the default
config and an unregistered tool name. -/
theorem dispatch_unknown_tool_retried_witness :
    (¬ "bogus_tool" ∈ toolRegistry) ∧
    1 ≤ (({} : ReplayConfig)).retry_attempts ∧
    ((dispatch "bogus_tool" [("k", JValue.num 1)]
        (fun _ _ => Except.ok JValue.null)).1 =
      Except.error (keyErrorStr (unknownToolMessage "bogus_tool")) ∧
    (dispatch "bogus_tool" [("k", JValue.num 1)]
        (fun _ _ => Except.ok JValue.null)).2 = [("k", JValue.num 1)] ∧
    (execute_with_retry {} "bogus_tool" [("k", JValue.num 1)] 0
        (fun _ => (dispatch "bogus_tool" [("k", JValue.num 1)]
          (fun _ _ => Except.ok JValue.null)).1)
        (fun _ => none)).result.status = ActionStatus.failed ∧
    (execute_with_retry {} "bogus_tool" [("k", JValue.num 1)] 0
        (fun _ => (dispatch "bogus_tool" [("k", JValue.num 1)]
          (fun _ _ => Except.ok JValue.null)).1)
        (fun _ => none)).result.error =
      some (keyErrorStr (unknownToolMessage "bogus_tool")) ∧
    (execute_with_retry {} "bogus_tool" [("k", JValue.num 1)] 0
        (fun _ => (dispatch "bogus_tool" [("k", JValue.num 1)]
          (fun _ _ => Except.ok JValue.null)).1)
        (fun _ => none)).dispatch_calls = (({} : ReplayConfig)).retry_attempts) :=
  ⟨by decide, by decide,
    dispatch_unknown_tool_retried {} "bogus_tool" [("k", JValue.num 1)] 0
      (fun _ _ => Except.ok JValue.null) (fun _ => none) (by decide) (by decide)⟩

/-- C2 counterexample: with the default config and an unregistered
tool name, `execute_with_retry` invokes dispatch 3 times — not once as
the specification claims. -/
theorem dispatch_unknown_tool_counterexample :
    ¬ ("no_such_tool" ∈ toolRegistry) ∧
    (execute_with_retry {} "no_such_tool" [] 0
        (fun _ => (dispatch "no_such_tool" []
          (fun _ _ => Except.ok JValue.null)).1)
        (fun _ => none)).dispatch_calls = 3 ∧
    ¬ ((execute_with_retry {} "no_such_tool" [] 0
        (fun _ => (dispatch "no_such_tool" []
          (fun _ _ => Except.ok JValue.null)).1)
        (fun _ => none)).dispatch_calls = 1) := by
  refine ⟨by decide, ?_, ?_⟩
  · rfl
  · intro hcontra
    have h3 : (execute_with_retry {} "no_such_tool" [] 0
        (fun _ => (dispatch "no_such_tool" []
          (fun _ _ => Except.ok JValue.null)).1)
        (fun _ => none)).dispatch_calls = 3 := rfl
    rw [h3] at hcontra
    omega

/-- C3: `_transform_parameters` evaluated at the documented
`screenshot` case with a recorded `filepath` key: the caller's
original dict is mutated in place (the entry is renamed before the
copy is taken), contradicting both the specification and the
function's own comment that the copy avoids mutating the original. -/
theorem transform_parameters_mutates_original :
    (transform_parameters "screenshot"
        [("filepath", JValue.str "a.png")]).1 =
      [("filename", JValue.str "a.png")] ∧
    ¬ ((transform_parameters "screenshot"
        [("filepath", JValue.str "a.png")]).1 =
      [("filepath", JValue.str "a.png")]) := by
  constructor
  · rfl
  · intro hcontra
    have hkeys := congrArg (fun l => l.map Prod.fst) hcontra
    simp [transform_parameters, pmSet, pmPop, pmGet, pmHasKey] at hkeys

/-- Round-half-even to an integer: Python `round` semantics, idealized
over ℚ (Python rounds binary floats; every value a claim touches is
exactly representable, where the two agree). -/
def roundHalfEven (x : ℚ) : ℤ :=
  if x - ⌊x⌋ < 1/2 then ⌊x⌋
  else if 1/2 < x - ⌊x⌋ then ⌊x⌋ + 1
  else if Even ⌊x⌋ then ⌊x⌋ else ⌊x⌋ + 1

/-- Python `round(x, 2)`. -/
def round2 (x : ℚ) : ℚ := (roundHalfEven (x * 100) : ℚ) / 100

/-- Length of a JSON array (`len`), 0 otherwise. -/
def jlen : JValue → ℕ
  | .arr xs => xs.length
  | _ => 0

/-- Accumulated state of a `ReplayReport` (`replay_report.py` lines
72-92): metadata set once, action results appended in order, global
errors appended in order. -/
structure ReplayReportState where
  scenario_metadata : List (String × JValue) := []
  action_results : List ActionResult := []
  global_errors : List String := []

/-- `ReplayReport.set_scenario_metadata` (`replay_report.py` lines
77-84). -/
def set_scenario_metadata (scenario : JValue) : List (String × JValue) :=
  [("session_name", jget scenario "session_name"),
   ("device_id", jget scenario "device_id"),
   ("recorded_at", jget scenario "timestamp"),
   ("total_actions", .num (jlen (jgetD scenario "actions" (.arr []))))]

/-- The `execution` sub-dict of the generated report. -/
structure ExecutionStats where
  duration_seconds : ℚ
  total_actions : ℕ
  successful_actions : ℕ
  failed_actions : ℕ
  skipped_actions : ℕ
  success_rate : ℚ
  total_retries : ℕ
  avg_action_duration_ms : ℚ

/-- The report dict returned by `ReplayReport.generate`.  The Python
code serializes each action result through `ActionResult.to_dict`, a
field-by-field projection; the embedded report keeps the records
themselves (which entries appear, and in which order, is unchanged). -/
structure Report where
  success : Bool
  scenario : List (String × JValue)
  execution : ExecutionStats
  action_results : List ActionResult
  errors : List String
  failed_actions : List ActionResult

/-- `ReplayReport.generate` (`replay_report.py` lines 94-157). -/
def generate (st : ReplayReportState) (duration_seconds : ℚ) : Report :=
  let total := st.action_results.length
  let successful := (st.action_results.filter
    (fun r => decide (r.status = ActionStatus.success))).length
  let failed := (st.action_results.filter
    (fun r => decide (r.status = ActionStatus.failed))).length
  let skipped := (st.action_results.filter
    (fun r => decide (r.status = ActionStatus.skipped))).length
  let success_rate : ℚ :=
    if 0 < total then (successful : ℚ) / (total : ℚ) * 100 else 0
  let durations := (st.action_results.filterMap ActionResult.metrics).map
    ExecutionMetrics.duration_ms
  let avg_duration : ℚ :=
    if durations.isEmpty then 0 else durations.sum / (durations.length : ℚ)
  let total_retries := ((st.action_results.filterMap ActionResult.metrics).map
    ExecutionMetrics.retry_count).sum
  { success := decide (failed = 0) && st.global_errors.isEmpty,
    scenario := st.scenario_metadata,
    execution :=
      { duration_seconds := round2 duration_seconds,
        total_actions := total,
        successful_actions := successful,
        failed_actions := failed,
        skipped_actions := skipped,
        success_rate := round2 success_rate,
        total_retries := total_retries,
        avg_action_duration_ms := round2 avg_duration },
    action_results := st.action_results,
    errors := st.global_errors,
    failed_actions := st.action_results.filter
      (fun r => decide (r.status = ActionStatus.failed)) }

/-- Rounding an integer to two decimals is the identity. -/
theorem roundHalfEven_intCast (n : ℤ) : roundHalfEven (n : ℚ) = n := by
  simp [roundHalfEven]

/-- `round2` fixes integers. -/
theorem round2_intCast (n : ℤ) : round2 (n : ℚ) = n := by
  have h : ((n : ℚ) * 100) = ((n * 100 : ℤ) : ℚ) := by push_cast; ring
  rw [round2, h, roundHalfEven_intCast]
  push_cast
  field_simp

/-- A SUCCESS result with no metrics, for concrete report states. -/
def okResult : ActionResult :=
  { action_index := 0, tool_name := "click", parameters := [],
    status := .success, result := some JValue.null, error := none,
    metrics := none }

/-- A FAILED result with no metrics, for concrete report states. -/
def failResult : ActionResult :=
  { action_index := 0, tool_name := "click", parameters := [],
    status := .failed, result := none, error := some "e",
    metrics := none }

/-- A SKIPPED result, for concrete report states. -/
def skippedResult : ActionResult :=
  { action_index := 0, tool_name := "click", parameters := [],
    status := .skipped, result := none, error := none,
    metrics := none }

/-- C7 (amended): `success` is true iff no FAILED result and no global
error (so the empty report is successful); the reported success rate
is `successful/total*100` rounded to two decimals, exactly `0` when
`total = 0` and exactly `100` when every recorded result (of which
there is at least one) is SUCCESS; and `failed_actions` is exactly the
filtered list of FAILED results. -/
theorem generate_success_and_rate (st : ReplayReportState) (dur : ℚ) :
    ((generate st dur).success = true ↔
      ((st.action_results.filter
          (fun r => decide (r.status = ActionStatus.failed))).length = 0 ∧
        st.global_errors = [])) ∧
    (generate st dur).execution.success_rate =
      round2 (if 0 < st.action_results.length
        then ((st.action_results.filter
            (fun r => decide (r.status = ActionStatus.success))).length : ℚ) /
          (st.action_results.length : ℚ) * 100
        else 0) ∧
    (st.action_results.length = 0 →
      (generate st dur).execution.success_rate = 0) ∧
    ((∀ r ∈ st.action_results, r.status = ActionStatus.success) →
      0 < st.action_results.length →
      (generate st dur).execution.success_rate = 100) ∧
    (generate st dur).failed_actions =
      st.action_results.filter (fun r => decide (r.status = ActionStatus.failed)) := by
  refine ⟨?_, rfl, ?_, ?_, rfl⟩
  · simp [generate, List.isEmpty_iff]
  · intro h0
    have : ¬ 0 < st.action_results.length := by omega
    simp only [generate, this, if_false]
    simpa using round2_intCast 0
  · intro hall hpos
    have hfilter : st.action_results.filter
        (fun r => decide (r.status = ActionStatus.success)) = st.action_results :=
      List.filter_eq_self.mpr (fun a ha => by simp [hall a ha])
    have hne : (st.action_results.length : ℚ) ≠ 0 := by
      exact_mod_cast Nat.pos_iff_ne_zero.mp hpos
    simp only [generate, hfilter, hpos, if_true]
    rw [div_self hne, one_mul]
    simpa using round2_intCast 100

/-- Closed instance of `generate_success_and_rate`: one SUCCESS
result, no errors — success is true and the rate is exactly 100. -/
theorem generate_success_and_rate_witness :
    (∀ r ∈ ({ action_results := [okResult] } : ReplayReportState).action_results,
      r.status = ActionStatus.success) ∧
    0 < ({ action_results := [okResult] } : ReplayReportState).action_results.length ∧
    (generate { action_results := [okResult] } 0).execution.success_rate = 100 := by
  have hall : ∀ r ∈ ({ action_results := [okResult] } : ReplayReportState).action_results,
      r.status = ActionStatus.success := by
    intro r hr
    simp only [List.mem_singleton] at hr
    rw [hr]; rfl
  exact ⟨hall, by decide,
    ((generate_success_and_rate { action_results := [okResult] } 0).2.2.2.1) hall (by decide)⟩

/-- C7 counterexample: a report state holding one SKIPPED result has
`failed_actions = 0` and `total_actions = 1 > 0`, yet its
`success_rate` is 0, not 100 (its `success` flag is even true). -/
theorem generate_rate_counterexample :
    (generate { action_results := [skippedResult] } 0).execution.failed_actions = 0 ∧
    0 < (generate { action_results := [skippedResult] } 0).execution.total_actions ∧
    ¬ ((generate { action_results := [skippedResult] } 0).execution.success_rate = 100) ∧
    (generate { action_results := [skippedResult] } 0).execution.success_rate = 0 ∧
    (generate { action_results := [skippedResult] } 0).success = true := by
  have hrate : (generate { action_results := [skippedResult] } 0).execution.success_rate = 0 := by
    have h : (generate { action_results := [skippedResult] } 0).execution.success_rate =
        round2 ((0 : ℚ) / 1 * 100) := rfl
    rw [h]
    norm_num
    simpa using round2_intCast 0
  refine ⟨rfl, by decide, ?_, hrate, rfl⟩
  rw [hrate]
  norm_num

/-- Elements of a JSON array (`[]` for non-arrays; `load_scenario`
rejects a non-list `actions` value before the loop can see one). -/
def jarr : JValue → List JValue
  | .arr xs => xs
  | _ => []

/-- `next_action.get('delay_before_ms', 0)` read as a number (recorded
delays are JSON numbers; a non-numeric value would raise `TypeError`
at the `>` comparison in Python and is not modelled). -/
def delayBeforeMs (action : JValue) : ℚ :=
  match jgetD action "delay_before_ms" (.num 0) with
  | .num q => q
  | _ => 0

/-- `ReplayEngine._apply_delay` (`replay_engine.py` lines 236-254):
the sleep performed between the current and the next action, if any.
The *next* action's recorded `delay_before_ms` is divided by 1000 and
by `speed_multiplier`; nothing is slept when the recorded delay is not
positive or the scaled delay is not positive.  (`speed_multiplier = 0`
raises `ZeroDivisionError` in Python; every theorem below assumes a
positive multiplier, as the configuration contract requires.) -/
def apply_delay (cfg : ReplayConfig) (next_action : JValue) : Option ℚ :=
  let delay_ms := delayBeforeMs next_action
  if 0 < delay_ms then
    let scaled_delay := delay_ms / 1000 / cfg.speed_multiplier
    if 0 < scaled_delay then some scaled_delay else none
  else none

/-- The action loop of `ReplayEngine.replay` (`replay_engine.py` lines
172-184).  `execA idx action` abstracts `self._execute_action(action,
idx)`, which delegates to `execute_with_retry` and never raises.
Returns the recorded results in order, the executed action indices in
order, and the trace of inter-action sleeps.  The loop records each
result, breaks when the result is not SUCCESS and `stop_on_error` is
set, and otherwise sleeps the next action's delay when a next action
exists (`idx < len(actions) - 1` is exactly "the remaining list is
non-empty"). -/
def replayLoop (cfg : ReplayConfig) (execA : ℕ → JValue → ActionResult) :
    ℕ → List JValue → List ActionResult × List ℕ × List ℚ
  | _, [] => ([], [], [])
  | idx, action :: rest =>
    let result := execA idx action
    if ¬ result.status = ActionStatus.success ∧ cfg.stop_on_error = true then
      ([result], [idx], [])
    else
      match rest with
      | [] => ([result], [idx], [])
      | next :: _ =>
        let tail := replayLoop cfg execA (idx + 1) rest
        (result :: tail.1, idx :: tail.2.1,
          (apply_delay cfg next).toList ++ tail.2.2)

/-- Observable outcome of one `ReplayEngine.replay` call: the returned
report plus the executed-action and orchestrator-sleep traces. -/
structure ReplayRun where
  report : Report
  executed : List ℕ
  loop_sleeps : List ℚ

/-- `ReplayEngine.replay` (`replay_engine.py` lines 142-192).
`load_outcome` abstracts `self.load_scenario(scenario_path)`: `.error
e` is a raised exception (missing file, unparsable JSON, or failed
schema validation) with message `e`.  The `try/except` turns any such
failure into one global error `"Replay error: " + e`, and the report
is generated in the `finally`-guarded tail in all cases, so the call
returns a report and never propagates an exception.  The device-ready
step (lines 222-234) swallows its own exceptions and only prints, so
it has no observable effect here. -/
def replay (cfg : ReplayConfig) (load_outcome : Except String JValue)
    (execA : ℕ → JValue → ActionResult) (duration : ℚ) : ReplayRun :=
  match load_outcome with
  | .error e =>
    let st : ReplayReportState :=
      { scenario_metadata := [], action_results := [],
        global_errors := ["Replay error: " ++ e] }
    { report := generate st duration, executed := [], loop_sleeps := [] }
  | .ok scenario =>
    let loop := replayLoop cfg execA 0 (jarr (jgetD scenario "actions" (JValue.arr [])))
    let st : ReplayReportState :=
      { scenario_metadata := set_scenario_metadata scenario,
        action_results := loop.1, global_errors := [] }
    { report := generate st duration, executed := loop.2.1, loop_sleeps := loop.2.2 }

/-- One-step unfolding of the loop when the current result triggers
the `stop_on_error` break: the breaking result is recorded, iteration
ends, and no sleep follows. -/
theorem replayLoop_cons_stop_eq (cfg : ReplayConfig)
    (execA : ℕ → JValue → ActionResult) (idx : ℕ) (a : JValue)
    (rest : List JValue)
    (hstop : ¬ (execA idx a).status = ActionStatus.success ∧
      cfg.stop_on_error = true) :
    replayLoop cfg execA idx (a :: rest) = ([execA idx a], [idx], []) := by
  cases rest with
  | nil => simp [replayLoop, hstop]
  | cons next rest' => simp [replayLoop, hstop]

/-- One-step unfolding of the loop on the last action (no break): the
result is recorded and no sleep follows (`idx < len(actions) - 1`
fails). -/
theorem replayLoop_last_eq (cfg : ReplayConfig)
    (execA : ℕ → JValue → ActionResult) (idx : ℕ) (a : JValue) :
    replayLoop cfg execA idx [a] = ([execA idx a], [idx], []) := by
  by_cases hstop : ¬ (execA idx a).status = ActionStatus.success ∧
      cfg.stop_on_error = true
  · simp [replayLoop, hstop]
  · simp [replayLoop, hstop]

/-- One-step unfolding of the loop when iteration continues: the
result is recorded, the sleep for the next action (if any) happens,
and the loop recurses on the remaining actions. -/
theorem replayLoop_cons_continue (cfg : ReplayConfig)
    (execA : ℕ → JValue → ActionResult) (idx : ℕ) (a next : JValue)
    (rest' : List JValue)
    (hstop : ¬ (¬ (execA idx a).status = ActionStatus.success ∧
      cfg.stop_on_error = true)) :
    replayLoop cfg execA idx (a :: next :: rest') =
      (execA idx a :: (replayLoop cfg execA (idx + 1) (next :: rest')).1,
       idx :: (replayLoop cfg execA (idx + 1) (next :: rest')).2.1,
       (apply_delay cfg next).toList ++
         (replayLoop cfg execA (idx + 1) (next :: rest')).2.2) := by
  simp [replayLoop, hstop]

/-- With `stop_on_error` unset the loop records one result per action
and executes exactly the indices `idx, idx+1, ...` in order. -/
theorem replayLoop_no_stop (cfg : ReplayConfig)
    (execA : ℕ → JValue → ActionResult) (h : cfg.stop_on_error = false) :
    ∀ acts idx,
      (replayLoop cfg execA idx acts).1.length = acts.length ∧
      (replayLoop cfg execA idx acts).2.1 = List.range' idx acts.length := by
  intro acts
  induction acts with
  | nil => intro idx; exact ⟨rfl, rfl⟩
  | cons a rest ih =>
    intro idx
    have hns : ¬ (¬ (execA idx a).status = ActionStatus.success ∧
        cfg.stop_on_error = true) := by simp [h]
    cases rest with
    | nil =>
      rw [replayLoop_last_eq]
      exact ⟨rfl, by simp [List.range'_succ]⟩
    | cons next rest' =>
      obtain ⟨h1, h2⟩ := ih (idx + 1)
      rw [replayLoop_cons_continue cfg execA idx a next rest' hns]
      exact ⟨by simp [h1], by simp [h2, List.range'_succ]⟩

/-- The loop always executes a prefix: there is an `n` (number of
executed actions, at least one when any action exists) with one
recorded result per executed action, executed indices
`idx .. idx+n-1`, and sleeps exactly the defined delays keyed to the
second through last *executed* actions — never one keyed to an action
after the last executed one. -/
theorem replayLoop_prefix (cfg : ReplayConfig)
    (execA : ℕ → JValue → ActionResult) :
    ∀ acts idx, ∃ n,
      n ≤ acts.length ∧
      (acts ≠ [] → 1 ≤ n) ∧
      (replayLoop cfg execA idx acts).1.length = n ∧
      (replayLoop cfg execA idx acts).2.1 = List.range' idx n ∧
      (replayLoop cfg execA idx acts).2.2 =
        ((acts.take n).drop 1).filterMap (apply_delay cfg) := by
  intro acts
  induction acts with
  | nil => intro idx; exact ⟨0, by simp, by simp, rfl, rfl, rfl⟩
  | cons a rest ih =>
    intro idx
    by_cases hstop : ¬ (execA idx a).status = ActionStatus.success ∧
        cfg.stop_on_error = true
    · refine ⟨1, by simp, fun _ => le_refl 1, ?_⟩
      rw [replayLoop_cons_stop_eq cfg execA idx a rest hstop]
      exact ⟨rfl, by simp [List.range'_succ], by simp⟩
    · cases rest with
      | nil =>
        refine ⟨1, by simp, fun _ => le_refl 1, ?_⟩
        rw [replayLoop_last_eq]
        exact ⟨rfl, by simp [List.range'_succ], by simp⟩
      | cons next rest' =>
        obtain ⟨n, hle, hpos, hlen, hexec, hsleeps⟩ := ih (idx + 1)
        have hn1 : 1 ≤ n := hpos (by simp)
        rw [replayLoop_cons_continue cfg execA idx a next rest' hstop]
        refine ⟨n + 1, by simpa using hle, fun _ => by omega, ?_, ?_, ?_⟩
        · simp [hlen]
        · simp [hexec, List.range'_succ]
        · cases n with
          | zero => omega
          | succ m =>
            rw [hsleeps]
            simp only [List.take_succ_cons, List.drop_succ_cons, List.drop_zero,
              List.filterMap_cons]
            cases h : apply_delay cfg next <;> simp [h]

/-- C1: `replay` always returns a structured report, whatever the
load outcome and whatever the per-action execution does; when scenario
loading fails, the report carries exactly the one global error,
empty statistics, and `success = false`. -/
theorem replay_never_raises (cfg : ReplayConfig)
    (load_outcome : Except String JValue)
    (execA : ℕ → JValue → ActionResult) (duration : ℚ) :
    (∃ run : ReplayRun, replay cfg load_outcome execA duration = run) ∧
    (∀ e, load_outcome = Except.error e →
      (replay cfg load_outcome execA duration).report.success = false ∧
      (replay cfg load_outcome execA duration).report.errors =
        ["Replay error: " ++ e] ∧
      (replay cfg load_outcome execA duration).report.execution.total_actions = 0 ∧
      (replay cfg load_outcome execA duration).report.execution.successful_actions = 0 ∧
      (replay cfg load_outcome execA duration).report.execution.failed_actions = 0 ∧
      (replay cfg load_outcome execA duration).report.execution.skipped_actions = 0 ∧
      (replay cfg load_outcome execA duration).report.execution.success_rate = 0 ∧
      (replay cfg load_outcome execA duration).report.action_results = []) := by
  refine ⟨⟨_, rfl⟩, ?_⟩
  intro e he
  subst he
  refine ⟨rfl, rfl, rfl, rfl, rfl, rfl, ?_, rfl⟩
  have h : (replay cfg (Except.error e) execA duration).report.execution.success_rate =
      round2 0 := rfl
  rw [h]
  simpa using round2_intCast 0

/-- Closed instance of `replay_never_raises` at a failed load. -/
theorem replay_never_raises_witness :
    (Except.error "Scenario not found: x.json" =
      (Except.error "Scenario not found: x.json" : Except String JValue)) ∧
    ((replay {} (Except.error "Scenario not found: x.json")
        (fun _ _ => okResult) 0).report.success = false ∧
      (replay {} (Except.error "Scenario not found: x.json")
        (fun _ _ => okResult) 0).report.errors =
        ["Replay error: " ++ "Scenario not found: x.json"] ∧
      (replay {} (Except.error "Scenario not found: x.json")
        (fun _ _ => okResult) 0).report.execution.total_actions = 0 ∧
      (replay {} (Except.error "Scenario not found: x.json")
        (fun _ _ => okResult) 0).report.execution.successful_actions = 0 ∧
      (replay {} (Except.error "Scenario not found: x.json")
        (fun _ _ => okResult) 0).report.execution.failed_actions = 0 ∧
      (replay {} (Except.error "Scenario not found: x.json")
        (fun _ _ => okResult) 0).report.execution.skipped_actions = 0 ∧
      (replay {} (Except.error "Scenario not found: x.json")
        (fun _ _ => okResult) 0).report.execution.success_rate = 0 ∧
      (replay {} (Except.error "Scenario not found: x.json")
        (fun _ _ => okResult) 0).report.action_results = []) :=
  ⟨rfl, (replay_never_raises {} (Except.error "Scenario not found: x.json")
      (fun _ _ => okResult) 0).2 "Scenario not found: x.json" rfl⟩

/-- With `stop_on_error` set, if the results for the first `j`
relative indices are SUCCESS and the one at relative index `j` is not,
the loop records exactly the first `j + 1` results and executes
exactly the indices `idx .. idx+j`. -/
theorem replayLoop_stops (cfg : ReplayConfig)
    (execA : ℕ → JValue → ActionResult) (h : cfg.stop_on_error = true) :
    ∀ acts idx j (hj : j < acts.length),
      (∀ i (hi : i < j),
        (execA (idx + i) (acts.get ⟨i, hi.trans hj⟩)).status = ActionStatus.success) →
      ¬ (execA (idx + j) (acts.get ⟨j, hj⟩)).status = ActionStatus.success →
      (replayLoop cfg execA idx acts).1.length = j + 1 ∧
      (replayLoop cfg execA idx acts).2.1 = List.range' idx (j + 1) := by
  intro acts
  induction acts with
  | nil => intro idx j hj; simp at hj
  | cons a rest ih =>
    intro idx j hj hall hfail
    cases j with
    | zero =>
      have hf : ¬ (execA idx a).status = ActionStatus.success := by
        simpa using hfail
      rw [replayLoop_cons_stop_eq cfg execA idx a rest ⟨hf, h⟩]
      exact ⟨rfl, by simp [List.range'_succ]⟩
    | succ jj =>
      have h0 : (execA idx a).status = ActionStatus.success := by
        simpa using hall 0 (Nat.succ_pos jj)
      have hns : ¬ (¬ (execA idx a).status = ActionStatus.success ∧
          cfg.stop_on_error = true) := by simp [h0]
      have hjj : jj < rest.length := by simpa using hj
      cases rest with
      | nil => simp at hjj
      | cons next rest' =>
        have hall' : ∀ i (hi : i < jj),
            (execA (idx + 1 + i)
              ((next :: rest').get ⟨i, hi.trans hjj⟩)).status = ActionStatus.success := by
          intro i hi
          have := hall (i + 1) (by omega)
          simpa [Nat.add_right_comm] using this
        have hfail' : ¬ (execA (idx + 1 + jj)
            ((next :: rest').get ⟨jj, hjj⟩)).status = ActionStatus.success := by
          simpa [Nat.add_right_comm] using hfail
        obtain ⟨h1, h2⟩ := ih (idx + 1) jj hjj hall' hfail'
        rw [replayLoop_cons_continue cfg execA idx a next rest' hns]
        exact ⟨by simp [h1], by simp [h2, List.range'_succ]⟩

/-- C6: with `stop_on_error` unset all `N` actions are executed and
recorded (`execution.total_actions = N`, `N` entries in
`action_results`, indices `0..N-1` executed); with it set, iteration
halts right after the first non-SUCCESS result at index `j`: exactly
`j + 1` results are recorded and `total_actions = j + 1`, and no later
action is executed or recorded. -/
theorem replay_counts_and_stop (cfg : ReplayConfig)
    (execA : ℕ → JValue → ActionResult) (dur : ℚ)
    (scenario : JValue) (acts : List JValue)
    (hacts : jgetD scenario "actions" (JValue.arr []) = JValue.arr acts) :
    (cfg.stop_on_error = false →
      (replay cfg (Except.ok scenario) execA dur).report.execution.total_actions =
        acts.length ∧
      (replay cfg (Except.ok scenario) execA dur).report.action_results.length =
        acts.length ∧
      (replay cfg (Except.ok scenario) execA dur).executed =
        List.range acts.length) ∧
    (cfg.stop_on_error = true →
      ∀ j (hj : j < acts.length),
        (∀ i (hi : i < j),
          (execA i (acts.get ⟨i, hi.trans hj⟩)).status = ActionStatus.success) →
        ¬ (execA j (acts.get ⟨j, hj⟩)).status = ActionStatus.success →
        (replay cfg (Except.ok scenario) execA dur).report.execution.total_actions =
          j + 1 ∧
        (replay cfg (Except.ok scenario) execA dur).report.action_results.length =
          j + 1 ∧
        (replay cfg (Except.ok scenario) execA dur).executed =
          List.range (j + 1)) := by
  constructor
  · intro hfalse
    obtain ⟨h1, h2⟩ := replayLoop_no_stop cfg execA hfalse acts 0
    refine ⟨?_, ?_, ?_⟩ <;>
      simp [replay, hacts, jarr, generate, h1, h2, List.range_eq_range']
  · intro htrue j hj hall hfail
    have hall' : ∀ i (hi : i < j),
        (execA (0 + i) (acts.get ⟨i, hi.trans hj⟩)).status = ActionStatus.success := by
      intro i hi
      simpa [Nat.zero_add] using hall i hi
    have hfail' : ¬ (execA (0 + j) (acts.get ⟨j, hj⟩)).status = ActionStatus.success := by
      simpa [Nat.zero_add] using hfail
    obtain ⟨h1, h2⟩ := replayLoop_stops cfg execA htrue acts 0 j hj hall' hfail'
    refine ⟨?_, ?_, ?_⟩ <;>
      simp [replay, hacts, jarr, generate, h1, h2, List.range_eq_range']

/-- Closed instance of `replay_counts_and_stop`: three actions,
`stop_on_error` set, the middle one fails — two results recorded. -/
theorem replay_counts_and_stop_witness :
    jgetD (JValue.obj [("actions", JValue.arr [JValue.null, JValue.null, JValue.null])])
      "actions" (JValue.arr []) =
      JValue.arr [JValue.null, JValue.null, JValue.null] ∧
    ({ stop_on_error := true } : ReplayConfig).stop_on_error = true ∧
    (1 : ℕ) < 3 ∧
    ((replay { stop_on_error := true }
        (Except.ok (JValue.obj
          [("actions", JValue.arr [JValue.null, JValue.null, JValue.null])]))
        (fun i _ => if i = 1 then failResult else okResult)
        0).report.execution.total_actions = 1 + 1 ∧
      (replay { stop_on_error := true }
        (Except.ok (JValue.obj
          [("actions", JValue.arr [JValue.null, JValue.null, JValue.null])]))
        (fun i _ => if i = 1 then failResult else okResult)
        0).report.action_results.length = 1 + 1 ∧
      (replay { stop_on_error := true }
        (Except.ok (JValue.obj
          [("actions", JValue.arr [JValue.null, JValue.null, JValue.null])]))
        (fun i _ => if i = 1 then failResult else okResult)
        0).executed = List.range (1 + 1)) := by
  refine ⟨rfl, rfl, by omega, ?_⟩
  refine (replay_counts_and_stop { stop_on_error := true }
    (fun i _ => if i = 1 then failResult else okResult) 0
    (JValue.obj [("actions", JValue.arr [JValue.null, JValue.null, JValue.null])])
    [JValue.null, JValue.null, JValue.null] rfl).2 rfl 1 (by decide) ?_ ?_
  · intro i hi
    have hi0 : i = 0 := by omega
    subst hi0
    rfl
  · intro hcontra
    simp [failResult] at hcontra

/-- C8: with a positive speed multiplier, the inter-action sleep is
the next action's `delay_before_ms / 1000 / speed_multiplier` whenever
that is positive and is skipped whenever it is ≤ 0; and any run's
orchestrator sleeps are exactly the defined delays keyed to the second
through last *executed* actions — never one after the last executed
action. -/
theorem apply_delay_spec (cfg : ReplayConfig)
    (hmult : 0 < cfg.speed_multiplier) :
    (∀ next : JValue,
      (0 < delayBeforeMs next / 1000 / cfg.speed_multiplier →
        apply_delay cfg next =
          some (delayBeforeMs next / 1000 / cfg.speed_multiplier)) ∧
      (delayBeforeMs next / 1000 / cfg.speed_multiplier ≤ 0 →
        apply_delay cfg next = none)) ∧
    (∀ (execA : ℕ → JValue → ActionResult) (scenario : JValue) (acts : List JValue),
      jgetD scenario "actions" (JValue.arr []) = JValue.arr acts →
      ∃ n, n ≤ acts.length ∧
        (replay cfg (Except.ok scenario) execA 0).executed = List.range n ∧
        (replay cfg (Except.ok scenario) execA 0).loop_sleeps =
          ((acts.take n).drop 1).filterMap (apply_delay cfg)) := by
  constructor
  · intro next
    constructor
    · intro hpos
      have hdm : 0 < delayBeforeMs next := by
        by_contra hneg
        push_neg at hneg
        have h1000 : (0 : ℚ) < 1000 := by norm_num
        have : delayBeforeMs next / 1000 / cfg.speed_multiplier ≤ 0 := by
          apply div_nonpos_of_nonpos_of_nonneg
          · exact div_nonpos_of_nonpos_of_nonneg hneg (le_of_lt h1000)
          · exact le_of_lt hmult
        linarith
      simp [apply_delay, hdm, hpos]
    · intro hnonpos
      by_cases hdm : 0 < delayBeforeMs next
      · have : ¬ 0 < delayBeforeMs next / 1000 / cfg.speed_multiplier := by
          linarith
        simp [apply_delay, hdm, this]
      · simp [apply_delay, hdm]
  · intro execA scenario acts hacts
    obtain ⟨n, hle, _, _, hexec, hsleeps⟩ := replayLoop_prefix cfg execA acts 0
    exact ⟨n, hle, by simp [replay, hacts, jarr, hexec, List.range_eq_range'],
      by simp [replay, hacts, jarr, hsleeps]⟩

/-- Closed instance of `apply_delay_spec`: a recorded 2000 ms delay
sleeps 1 s at multiplier 2 and 4 s at multiplier 1/2. -/
theorem apply_delay_spec_witness :
    (0 : ℚ) < 2 ∧ (0 : ℚ) < 1/2 ∧
    apply_delay { speed_multiplier := 2 }
      (JValue.obj [("delay_before_ms", JValue.num 2000)]) = some 1 ∧
    apply_delay { speed_multiplier := 1/2 }
      (JValue.obj [("delay_before_ms", JValue.num 2000)]) = some 4 := by
  have hdm : delayBeforeMs (JValue.obj [("delay_before_ms", JValue.num 2000)]) =
      2000 := rfl
  have h2 := ((apply_delay_spec { speed_multiplier := 2 } (by norm_num)).1
    (JValue.obj [("delay_before_ms", JValue.num 2000)])).1
  have hh := ((apply_delay_spec { speed_multiplier := 1/2 } (by norm_num)).1
    (JValue.obj [("delay_before_ms", JValue.num 2000)])).1
  rw [hdm] at h2 hh
  refine ⟨by norm_num, by norm_num, ?_, ?_⟩
  · rw [h2 (by norm_num)]
    norm_num
  · rw [hh (by norm_num)]
    norm_num

/-- The fallback device id read from the first action's parameters
(`replay_engine.py` lines 117-123): `raw_scenario.get('actions', [])`,
and when that is a non-empty list, the first action's
`params.get('device_id')`; `None` otherwise.  (A truthy non-list
`actions` value would raise in Python at `actions[0].get`; scenarios
are JSON, so `actions` is a list whenever present in the shapes the
claims quantify over.) -/
def firstActionDeviceId (raw_scenario : JValue) : JValue :=
  match jgetD raw_scenario "actions" (.arr []) with
  | .arr (first_action :: _) =>
    jget (jgetD first_action "params" (.obj [])) "device_id"
  | _ => .null

/-- `ReplayEngine._normalize_new_schema` (`replay_engine.py` lines
92-140) as an `Except` (the `ValueError` for a falsy `metadata.name`
becomes `.error` with the source's message).  Mirrors the source
statement for statement: metadata lookup, `serial`-then-`id`
resolution guarded by the truthiness of the device dict, first-action
fallback when the result is falsy, the `metadata.name` validation, and
the normalized dict with the `'unknown'` default. -/
def normalize_new_schema (raw_scenario : JValue) : Except String JValue :=
  let metadata := jgetD raw_scenario "metadata" (.obj [])
  let session_name := jget metadata "name"
  let device_info := jgetD metadata "device" (.obj [])
  let device_id : JValue :=
    if jtruthy device_info then
      jor (jget device_info "serial") (jget device_info "id")
    else .null
  let device_id : JValue :=
    if jtruthy device_id then device_id else firstActionDeviceId raw_scenario
  if jtruthy session_name then
    Except.ok (.obj
      [("session_name", session_name),
       ("device_id", jor device_id (.str "unknown")),
       ("actions", jgetD raw_scenario "actions" (.arr [])),
       ("metadata", metadata),
       ("schema_version", jget raw_scenario "schema_version")])
  else
    Except.error "Invalid new schema: metadata.name is required"

/-- The `actions` validation shared by both schema shapes
(`replay_engine.py` lines 84-88). -/
def validate_actions (scenario : JValue) : Except String JValue :=
  if jhasKey scenario "actions" = false then
    Except.error "Invalid scenario: missing \x27actions\x27 field"
  else
    match jget scenario "actions" with
    | .arr _ => Except.ok scenario
    | _ => Except.error "Invalid scenario: \x27actions\x27 must be a list"

/-- `ReplayEngine.load_scenario` (`replay_engine.py` lines 41-90)
after the file has been read and parsed (a missing file or a JSON
parse error is a `.error` load outcome fed to `replay` directly):
schema detection, normalization for the new shape, pass-through for
the old shape, then the common `actions` validation. -/
def load_scenario (raw_scenario : JValue) : Except String JValue :=
  if jhasKey raw_scenario "schema_version" = true ∧
      jhasKey raw_scenario "metadata" = true then
    match normalize_new_schema raw_scenario with
    | .error e => Except.error e
    | .ok scenario => validate_actions scenario
  else if jhasKey raw_scenario "session_name" = true ∧
      jhasKey raw_scenario "device_id" = true then
    validate_actions raw_scenario
  else
    Except.error ("Invalid scenario format: must contain either " ++
      "(schema_version + metadata) or (session_name + device_id)")

/-- `None` is falsy. -/
@[simp] theorem jtruthy_null : jtruthy JValue.null = false := rfl

/-- A truthy value under a key forces the container itself truthy. -/
theorem jtruthy_of_jget (x : JValue) (k : String)
    (h : jtruthy (jget x k) = true) : jtruthy x = true := by
  cases x with
  | null => simp [jget, jtruthy] at h
  | bool b => simp [jget, jtruthy] at h
  | num q => simp [jget, jtruthy] at h
  | str s => simp [jget, jtruthy] at h
  | arr xs => simp [jget, jtruthy] at h
  | obj fs =>
    cases fs with
    | nil => simp [jget, jtruthy] at h
    | cons p ps => simp [jtruthy]

/-- A successful validation passes the scenario through unchanged and
certifies that it holds a list-valued `actions` key. -/
theorem validate_actions_ok (sc s : JValue)
    (h : validate_actions sc = Except.ok s) :
    s = sc ∧ jhasKey sc "actions" = true ∧
      ∃ xs, jget sc "actions" = JValue.arr xs := by
  unfold validate_actions at h
  by_cases hk : jhasKey sc "actions" = false
  · rw [if_pos hk] at h
    cases h
  · rw [if_neg hk] at h
    have hk' : jhasKey sc "actions" = true := by
      simpa using hk
    cases hx : jget sc "actions" with
    | arr xs =>
      rw [hx] at h
      injection h with h
      exact ⟨h.symm, hk', xs, rfl⟩
    | null => rw [hx] at h; cases h
    | bool b => rw [hx] at h; cases h
    | num q => rw [hx] at h; cases h
    | str t => rw [hx] at h; cases h
    | obj fs => rw [hx] at h; cases h

/-- A successful normalization always produces the five-field
normalized object (device value left abstract). -/
theorem normalize_ok_shape (raw sc : JValue)
    (h : normalize_new_schema raw = Except.ok sc) :
    ∃ d, sc = JValue.obj
      [("session_name", jget (jgetD raw "metadata" (JValue.obj [])) "name"),
       ("device_id", d),
       ("actions", jgetD raw "actions" (JValue.arr [])),
       ("metadata", jgetD raw "metadata" (JValue.obj [])),
       ("schema_version", jget raw "schema_version")] := by
  unfold normalize_new_schema at h
  by_cases hname : jtruthy (jget (jgetD raw "metadata" (JValue.obj [])) "name") = true
  · rw [if_pos hname] at h
    injection h with h
    exact ⟨_, h.symm⟩
  · rw [if_neg hname] at h
    cases h

/-- C9: for a new-shape scenario the normalized device id follows the
priority `metadata.device.serial`, then `metadata.device.id`, then the
first action's `device_id` parameter, then the literal `"unknown"`
(Python truthiness decides "present"); a new-shape file without a
truthy `metadata.name` fails with the validation error; and every
successfully loaded scenario of either shape exposes `session_name`,
`device_id`, and a list-valued `actions`. -/
theorem load_scenario_device_priority (raw : JValue) :
    (jhasKey raw "schema_version" = true → jhasKey raw "metadata" = true →
      jtruthy (jget (jgetD raw "metadata" (JValue.obj [])) "name") = false →
      load_scenario raw =
        Except.error "Invalid new schema: metadata.name is required") ∧
    (jtruthy (jget (jgetD raw "metadata" (JValue.obj [])) "name") = true →
      (jtruthy (jget (jgetD (jgetD raw "metadata" (JValue.obj []))
          "device" (JValue.obj [])) "serial") = true →
        ∃ s, normalize_new_schema raw = Except.ok s ∧
          jget s "session_name" =
            jget (jgetD raw "metadata" (JValue.obj [])) "name" ∧
          jget s "actions" = jgetD raw "actions" (JValue.arr []) ∧
          jget s "device_id" =
            jget (jgetD (jgetD raw "metadata" (JValue.obj []))
              "device" (JValue.obj [])) "serial") ∧
      (jtruthy (jget (jgetD (jgetD raw "metadata" (JValue.obj []))
          "device" (JValue.obj [])) "serial") = false →
        jtruthy (jget (jgetD (jgetD raw "metadata" (JValue.obj []))
          "device" (JValue.obj [])) "id") = true →
        ∃ s, normalize_new_schema raw = Except.ok s ∧
          jget s "device_id" =
            jget (jgetD (jgetD raw "metadata" (JValue.obj []))
              "device" (JValue.obj [])) "id") ∧
      (jtruthy (jget (jgetD (jgetD raw "metadata" (JValue.obj []))
          "device" (JValue.obj [])) "serial") = false →
        jtruthy (jget (jgetD (jgetD raw "metadata" (JValue.obj []))
          "device" (JValue.obj [])) "id") = false →
        jtruthy (firstActionDeviceId raw) = true →
        ∃ s, normalize_new_schema raw = Except.ok s ∧
          jget s "device_id" = firstActionDeviceId raw) ∧
      (jtruthy (jget (jgetD (jgetD raw "metadata" (JValue.obj []))
          "device" (JValue.obj [])) "serial") = false →
        jtruthy (jget (jgetD (jgetD raw "metadata" (JValue.obj []))
          "device" (JValue.obj [])) "id") = false →
        jtruthy (firstActionDeviceId raw) = false →
        ∃ s, normalize_new_schema raw = Except.ok s ∧
          jget s "device_id" = JValue.str "unknown")) ∧
    (∀ s, load_scenario raw = Except.ok s →
      jhasKey s "session_name" = true ∧ jhasKey s "device_id" = true ∧
      jhasKey s "actions" = true ∧ ∃ xs, jget s "actions" = JValue.arr xs) := by
  refine ⟨?_, ?_, ?_⟩
  · intro hsv hmd hname
    rw [load_scenario, if_pos ⟨hsv, hmd⟩]
    have hnorm : normalize_new_schema raw =
        Except.error "Invalid new schema: metadata.name is required" := by
      rw [normalize_new_schema, if_neg (by simp [hname])]
    rw [hnorm]
  · intro hname
    refine ⟨?_, ?_, ?_, ?_⟩
    · intro hserial
      have hdevT := jtruthy_of_jget _ "serial" hserial
      have hnorm : normalize_new_schema raw = Except.ok (JValue.obj
          [("session_name", jget (jgetD raw "metadata" (JValue.obj [])) "name"),
           ("device_id", jget (jgetD (jgetD raw "metadata" (JValue.obj []))
             "device" (JValue.obj [])) "serial"),
           ("actions", jgetD raw "actions" (JValue.arr [])),
           ("metadata", jgetD raw "metadata" (JValue.obj [])),
           ("schema_version", jget raw "schema_version")]) := by
        simp [normalize_new_schema, jor, hdevT, hserial, hname]
      exact ⟨_, hnorm, rfl, rfl, rfl⟩
    · intro hserialF hid
      have hdevT := jtruthy_of_jget _ "id" hid
      have hnorm : normalize_new_schema raw = Except.ok (JValue.obj
          [("session_name", jget (jgetD raw "metadata" (JValue.obj [])) "name"),
           ("device_id", jget (jgetD (jgetD raw "metadata" (JValue.obj []))
             "device" (JValue.obj [])) "id"),
           ("actions", jgetD raw "actions" (JValue.arr [])),
           ("metadata", jgetD raw "metadata" (JValue.obj [])),
           ("schema_version", jget raw "schema_version")]) := by
        simp [normalize_new_schema, jor, hdevT, hserialF, hid, hname]
      exact ⟨_, hnorm, rfl⟩
    · intro hserialF hidF hfb
      have hnorm : normalize_new_schema raw = Except.ok (JValue.obj
          [("session_name", jget (jgetD raw "metadata" (JValue.obj [])) "name"),
           ("device_id", firstActionDeviceId raw),
           ("actions", jgetD raw "actions" (JValue.arr [])),
           ("metadata", jgetD raw "metadata" (JValue.obj [])),
           ("schema_version", jget raw "schema_version")]) := by
        by_cases hdev : jtruthy (jgetD (jgetD raw "metadata" (JValue.obj []))
            "device" (JValue.obj [])) = true
        · simp [normalize_new_schema, jor, hdev, hserialF, hidF, hfb, hname]
        · have hdev' : jtruthy (jgetD (jgetD raw "metadata" (JValue.obj []))
              "device" (JValue.obj [])) = false := by simpa using hdev
          simp [normalize_new_schema, jor, hdev', hserialF, hidF, hfb, hname]
      exact ⟨_, hnorm, rfl⟩
    · intro hserialF hidF hfbF
      have hnorm : normalize_new_schema raw = Except.ok (JValue.obj
          [("session_name", jget (jgetD raw "metadata" (JValue.obj [])) "name"),
           ("device_id", JValue.str "unknown"),
           ("actions", jgetD raw "actions" (JValue.arr [])),
           ("metadata", jgetD raw "metadata" (JValue.obj [])),
           ("schema_version", jget raw "schema_version")]) := by
        by_cases hdev : jtruthy (jgetD (jgetD raw "metadata" (JValue.obj []))
            "device" (JValue.obj [])) = true
        · simp [normalize_new_schema, jor, hdev, hserialF, hidF, hfbF, hname]
        · have hdev' : jtruthy (jgetD (jgetD raw "metadata" (JValue.obj []))
              "device" (JValue.obj [])) = false := by simpa using hdev
          simp [normalize_new_schema, jor, hdev', hserialF, hidF, hfbF, hname]
      exact ⟨_, hnorm, rfl⟩
  · intro s hs
    by_cases hnew : jhasKey raw "schema_version" = true ∧ jhasKey raw "metadata" = true
    · rw [load_scenario, if_pos hnew] at hs
      cases hnorm : normalize_new_schema raw with
      | error e => rw [hnorm] at hs; cases hs
      | ok sc =>
        rw [hnorm] at hs
        obtain ⟨hsc, _, xs, hxs⟩ := validate_actions_ok sc s hs
        obtain ⟨d, hshape⟩ := normalize_ok_shape raw sc hnorm
        subst hsc
        subst hshape
        refine ⟨rfl, rfl, rfl, xs, ?_⟩
        simpa [jget] using hxs
    · rw [load_scenario, if_neg hnew] at hs
      by_cases hold : jhasKey raw "session_name" = true ∧ jhasKey raw "device_id" = true
      · rw [if_pos hold] at hs
        obtain ⟨hsc, hkact, xs, hxs⟩ := validate_actions_ok raw s hs
        subst hsc
        exact ⟨hold.1, hold.2, hkact, xs, hxs⟩
      · rw [if_neg hold] at hs
        cases hs

/-- Concrete new-shape scenario exercising the `serial` branch. -/
def rawNewExample : JValue :=
  JValue.obj
    [("schema_version", JValue.str "1.0"),
     ("metadata", JValue.obj
       [("name", JValue.str "sess"),
        ("device", JValue.obj [("serial", JValue.str "ABC123")])]),
     ("actions", JValue.arr [])]

/-- Concrete old-shape scenario. -/
def rawOldExample : JValue :=
  JValue.obj
    [("session_name", JValue.str "sess"),
     ("device_id", JValue.str "dev1"),
     ("actions", JValue.arr [])]

/-- Closed instance of `load_scenario_device_priority`: the serial
branch on a new-shape file, and field exposure on an old-shape
file. -/
theorem load_scenario_device_priority_witness :
    jtruthy (jget (jgetD rawNewExample "metadata" (JValue.obj [])) "name") = true ∧
    jtruthy (jget (jgetD (jgetD rawNewExample "metadata" (JValue.obj []))
      "device" (JValue.obj [])) "serial") = true ∧
    (∃ s, normalize_new_schema rawNewExample = Except.ok s ∧
      jget s "session_name" =
        jget (jgetD rawNewExample "metadata" (JValue.obj [])) "name" ∧
      jget s "actions" = jgetD rawNewExample "actions" (JValue.arr []) ∧
      jget s "device_id" =
        jget (jgetD (jgetD rawNewExample "metadata" (JValue.obj []))
          "device" (JValue.obj [])) "serial") ∧
    load_scenario rawOldExample = Except.ok rawOldExample ∧
    (jhasKey rawOldExample "session_name" = true ∧
      jhasKey rawOldExample "device_id" = true ∧
      jhasKey rawOldExample "actions" = true ∧
      ∃ xs, jget rawOldExample "actions" = JValue.arr xs) :=
  ⟨by decide, by decide,
    ((load_scenario_device_priority rawNewExample).2.1 (by decide)).1 (by decide),
    rfl,
    (load_scenario_device_priority rawOldExample).2.2 rawOldExample rfl⟩

end Replay
